import Mathlib

/-!
# Verification of the Sales-Market-Dashboard aggregation core

Shallow embedding of the computational core of `src/app.py` (a Streamlit
dashboard over a pandas dataframe): the dataset loader's derived calendar
columns, the category/weekday filter, the KPI scalars, and the
groupby/aggregate/sort/top-N pipeline, together with theorems settling the
specification claims.

Modelling conventions:
* A dataframe is a `List Row` (rows in order).
* `order_total` (a decimal currency amount, float64 in pandas) is modelled
  exactly as `ℚ`.
* pandas `Series.mean()` of an empty series is NaN; fallible values are
  `Option` (`none` = NaN).  `DataFrame.iloc[0]` on an empty frame raises
  `IndexError`; partial operations return `Option` (`none` = the raised
  exception).
* pandas `groupby(key, sort=True)` (the default used throughout the app)
  lists the groups in ascending key order.
* pandas `sort_values(col, ascending=False)` sorts descending by the
  measure column with numpy's default `kind="quicksort"`, which is
  unstable: the relative order of rows whose measures tie is an
  unspecified artifact of the partitioning.  The model therefore commits
  only to "sorted descending by the measure, a permutation of the input";
  it uses one concrete executable sort (`List.insertionSort` of the
  reversed table) to stay computable, and no theorem relies on the tie
  order it happens to produce.
* The Python dict `MONTH_MAP` is an association list; `MONTH_MAP[m]` is a
  lookup returning `Option` (`none` = `KeyError`), and the list
  comprehension `[k for k, v in MONTH_MAP.items() if v == name][0]` is a
  filtered lookup returning `Option` (`none` = `IndexError`).
-/

namespace SalesDash

/-- A calendar date, as carried by the parsed `order_date` column at the
granularity the app consumes (`dt.date`, `dt.month`, `dt.year`). -/
structure Date where
  year : ℕ
  month : ℕ
  day : ℕ
deriving DecidableEq, Repr

/-- Day of week of a date, 0 = Sunday, via Sakamoto's method; this is the
pure calendar derivation behind pandas `dt.day_name()`. -/
def dayOfWeek (d : Date) : ℕ :=
  let t : List ℕ := [0, 3, 2, 5, 0, 3, 5, 1, 4, 6, 2, 4]
  let y := if d.month < 3 then d.year - 1 else d.year
  (y + y / 4 - y / 100 + y / 400 + t.getD (d.month - 1) 0 + d.day) % 7

/-- English weekday name of a date, as produced by pandas `dt.day_name()`. -/
def dayName (d : Date) : String :=
  match dayOfWeek d with
  | 0 => "Sunday"
  | 1 => "Monday"
  | 2 => "Tuesday"
  | 3 => "Wednesday"
  | 4 => "Thursday"
  | 5 => "Friday"
  | _ => "Saturday"

/-- One raw order line of `restaurant_data.csv`, after the
`pd.to_datetime` parse of `order_date` (schema of section 6 of the spec). -/
structure RawRow where
  order_id : ℕ
  cust_id : ℕ
  category : String
  item : String
  quantity : ℕ
  order_total : ℚ
  order_date : Date
deriving DecidableEq, Repr

/-- One row of the loaded dataframe: the raw columns plus the calendar
columns `load_data` appends (`day`, `weekday`, `month`, `year`).  The ISO
week column (`df["week"]`) is also appended by the source but is consumed
by no aggregation, so it is not modelled. -/
structure Row where
  order_id : ℕ
  cust_id : ℕ
  category : String
  item : String
  quantity : ℕ
  order_total : ℚ
  order_date : Date
  day : Date
  weekday : String
  month : ℕ
  year : ℕ
deriving DecidableEq, Repr

/-- The derived-column part of `load_data` (src/app.py lines 26-36): append
the calendar columns, each a pure function of `order_date`. -/
def deriveRow (r : RawRow) : Row :=
  { order_id := r.order_id
    cust_id := r.cust_id
    category := r.category
    item := r.item
    quantity := r.quantity
    order_total := r.order_total
    order_date := r.order_date
    day := r.order_date
    weekday := dayName r.order_date
    month := r.order_date.month
    year := r.order_date.year }

/-- Model of `load_data`: parse rows and append derived calendar columns (the CSV
read itself is external I/O and out of scope). -/
def load_data (raw : List RawRow) : List Row :=
  raw.map deriveRow

/-- The Filter Engine (src/app.py lines 56-59):
`df[df["category"].isin(selected_category) & df["weekday"].isin(selected_weekday)]`.
The selections arrive from `st.multiselect` as lists of values. -/
def filtered_df (df : List Row) (selected_category selected_weekday : List String) :
    List Row :=
  df.filter fun r =>
    decide (r.category ∈ selected_category) && decide (r.weekday ∈ selected_weekday)

/-- KPI: `filtered_df['order_total'].sum()` (src/app.py line 76). -/
def total_revenue (v : List Row) : ℚ :=
  (v.map Row.order_total).sum

/-- KPI: `int(filtered_df['quantity'].sum())` (src/app.py line 81); the sum
of an integer column, so the `int` cast is the identity. -/
def total_items_sold (v : List Row) : ℕ :=
  (v.map Row.quantity).sum

/-- KPI: `filtered_df['order_total'].mean()` (src/app.py line 86).  pandas
`mean` of an empty series is NaN, modelled as `none`. -/
def avg_order_value (v : List Row) : Option ℚ :=
  if v.length = 0 then none else some (total_revenue v / (v.length : ℚ))

/-- The distinct values of a column, listed in ascending order: the group
keys produced by pandas `groupby(key, sort=True)` and by Python
`sorted(series.unique().tolist())`. -/
def sorted_unique {α : Type} [DecidableEq α] (r : α → α → Prop) [DecidableRel r]
    (l : List α) : List α :=
  List.insertionSort r l.dedup

/-- Model of `groupby(key, as_index=False).agg(measure)`: one output record per
distinct key (in ascending key order, `sort=True` being the pandas
default), the measure aggregated over that key's rows. -/
def groupby_agg {κ μ : Type} [DecidableEq κ] (r : κ → κ → Prop) [DecidableRel r]
    (key : Row → κ) (agg : List Row → μ) (v : List Row) : List (κ × μ) :=
  (sorted_unique r (v.map key)).map fun k =>
    (k, agg (v.filter fun row => decide (key row = k)))

/-- Aggregation measure `("order_total", "sum")`. -/
def sum_total (rows : List Row) : ℚ :=
  (rows.map Row.order_total).sum

/-- Aggregation measure `("quantity", "sum")`. -/
def sum_quantity (rows : List Row) : ℕ :=
  (rows.map Row.quantity).sum

/-- Aggregation measure `("order_id", "nunique")`: count of distinct order
ids. -/
def nunique_orders (rows : List Row) : ℕ :=
  (rows.map Row.order_id).dedup.length

/-- Model of `sort_values(col, ascending=False)` on an aggregate table:
a descending sort by the measure column.  The source uses numpy's default
unstable quicksort, so the relative order of rows with equal measures is
unspecified; this model fixes one concrete executable sort merely to have
a definition, and no theorem in this file depends on the tie order. -/
def sort_values_desc {κ μ : Type} [LinearOrder μ] (t : List (κ × μ)) : List (κ × μ) :=
  (List.insertionSort (fun a b => a.2 ≤ b.2) t.reverse).reverse

/-- Top Spenders (src/app.py lines 104-110): group by `cust_id`, aggregate
`total_spent = sum(order_total)`, sort descending, `head(10)`. -/
def customer_revenue (v : List Row) : List (ℕ × ℚ) :=
  (sort_values_desc (groupby_agg (· ≤ ·) Row.cust_id sum_total v)).take 10

/-- Model of `top_spender = customer_revenue.iloc[0]` (src/app.py line 112): `none`
models the `IndexError` raised on an empty table. -/
def top_spender (v : List Row) : Option (ℕ × ℚ) :=
  (customer_revenue v).head?

/-- Most Loyal (src/app.py lines 146-152): group by `cust_id`, aggregate
`total_orders = nunique(order_id)`, sort descending, `head(10)`. -/
def customer_loyalty (v : List Row) : List (ℕ × ℕ) :=
  (sort_values_desc (groupby_agg (· ≤ ·) Row.cust_id nunique_orders v)).take 10

/-- Model of `most_loyal = customer_loyalty.iloc[0]` (src/app.py line 154): `none`
models the `IndexError` raised on an empty table. -/
def most_loyal (v : List Row) : Option (ℕ × ℕ) :=
  (customer_loyalty v).head?

/-- Revenue by Category (src/app.py lines 207-211). -/
def rev_cat (v : List Row) : List (String × ℚ) :=
  groupby_agg (· ≤ ·) Row.category sum_total v

/-- Volume by Category (src/app.py lines 242-246). -/
def vol_cat (v : List Row) : List (String × ℕ) :=
  groupby_agg (· ≤ ·) Row.category sum_quantity v

/-- Lexicographic order on the two-column group key `(category, item)`,
the key order of a pandas multi-key groupby. -/
def strPairLe (a b : String × String) : Prop :=
  a.1 < b.1 ∨ (a.1 = b.1 ∧ a.2 ≤ b.2)

instance : DecidableRel strPairLe := fun a b => by
  unfold strPairLe; exact inferInstance

/-- Item Performance (src/app.py lines 284-291): group by
`(category, item)`, aggregate `sum(quantity)` and `sum(order_total)`. -/
def item_perf (v : List Row) : List ((String × String) × (ℕ × ℚ)) :=
  groupby_agg strPairLe (fun r => (r.category, r.item))
    (fun rows => (sum_quantity rows, sum_total rows)) v

/-- Orders by Weekday (src/app.py lines 322-326). -/
def weekday_order (v : List Row) : List (String × ℕ) :=
  groupby_agg (· ≤ ·) Row.weekday nunique_orders v

/-- The `MONTH_MAP` dict (src/app.py lines 352-356), as an association
list in insertion order. -/
def MONTH_MAP : List (ℕ × String) :=
  [(1, "January"), (2, "February"), (3, "March"), (4, "April"),
   (5, "May"), (6, "June"), (7, "July"), (8, "August"),
   (9, "September"), (10, "October"), (11, "November"), (12, "December")]

/-- Dict access `MONTH_MAP[m]`: `none` models the `KeyError` raised when
`m` is not a key. -/
def month_map_get (m : ℕ) : Option String :=
  ((MONTH_MAP.filter fun p => decide (p.1 = m)).map Prod.snd).head?

/-- Model of `month_num = [k for k, v in MONTH_MAP.items() if v == name][0]`
(src/app.py line 376): `none` models the `IndexError` raised when no entry
has value `name`. -/
def month_num (name : String) : Option ℕ :=
  ((MONTH_MAP.filter fun p => decide (p.2 = name)).map Prod.fst).head?

/-- Model of `df_2022 = filtered_df[filtered_df["year"] == 2022]` and its 2023 twin
(src/app.py lines 362 and 406), parameterised by the year literal. -/
def df_year (v : List Row) (y : ℕ) : List Row :=
  v.filter fun r => decide (r.year = y)

/-- Model of `months_2022 = sorted(df_2022["month"].dropna().unique().tolist())`
(src/app.py line 364); the month column is integral so `dropna` drops
nothing. -/
def months_in_year (v : List Row) (y : ℕ) : List ℕ :=
  sorted_unique (· ≤ ·) ((df_year v y).map Row.month)

/-- The Python list comprehension `[MONTH_MAP[m] for m in ms]`: the first
failing dict access aborts with `KeyError` (`none`). -/
def lookup_all (f : ℕ → Option String) : List ℕ → Option (List String)
  | [] => some []
  | m :: t =>
    match f m, lookup_all f t with
    | some s, some rest => some (s :: rest)
    | _, _ => none

/-- Model of `month_options_2022 = ["All Months"] + [MONTH_MAP[m] for m in months_2022]`
(src/app.py line 365) and its 2023 twin. -/
def month_options (v : List Row) (y : ℕ) : Option (List String) :=
  (lookup_all month_map_get (months_in_year v y)).map fun names =>
    "All Months" :: names

/-- The month narrowing of the year sub-view (src/app.py lines 373-377):
`plot_df = df_year` for the "All Months" sentinel, otherwise the rows of
the selected month (after the `month_num` reverse lookup, whose failure
is an `IndexError`, i.e. `none`). -/
def plot_df (v : List Row) (y : ℕ) (sel : String) : Option (List Row) :=
  if sel = "All Months" then some (df_year v y)
  else (month_num sel).map fun m => (df_year v y).filter fun r => decide (r.month = m)

/-- Order on day keys (dates), as pandas sorts datetime group keys. -/
def dateLe (a b : Date) : Prop :=
  a.year < b.year ∨ (a.year = b.year ∧
    (a.month < b.month ∨ (a.month = b.month ∧ a.day ≤ b.day)))

instance : DecidableRel dateLe := fun a b => by
  unfold dateLe; exact inferInstance

/-- Model of `daily_rev = plot_df.groupby("day", as_index=False).agg(daily_revenue=("order_total", "sum"))`
(src/app.py lines 379-383). -/
def daily_rev (p : List Row) : List (Date × ℚ) :=
  groupby_agg dateLe Row.day sum_total p

/-- What the daily-revenue branch renders (src/app.py lines 385-402):
either the `st.info("No data available for this month.")` message or a
line chart of the daily revenue table. -/
inductive DailyRender : Type
  | noData : DailyRender
  | chart : List (Date × ℚ) → DailyRender
deriving DecidableEq, Repr

/-- Model of `if daily_rev.empty: st.info(...) else: px.line(daily_rev)`. -/
def render_daily (p : List Row) : DailyRender :=
  if daily_rev p = [] then DailyRender.noData else DailyRender.chart (daily_rev p)

/-- The whole per-year daily-revenue block (src/app.py lines 362-402 for
2022, 406-446 for 2023), given the month selection: `none` models the
`IndexError` of an unmatched month name. -/
def daily_rev_year (v : List Row) (y : ℕ) (sel : String) : Option DailyRender :=
  (plot_df v y sel).map render_daily

/-! ## Basic lemmas about the pipeline -/

theorem mem_sorted_unique {α : Type} [DecidableEq α] (r : α → α → Prop) [DecidableRel r]
    {a : α} {l : List α} : a ∈ sorted_unique r l ↔ a ∈ l := by
  unfold sorted_unique
  rw [(List.perm_insertionSort r l.dedup).mem_iff, List.mem_dedup]

theorem nodup_sorted_unique {α : Type} [DecidableEq α] (r : α → α → Prop) [DecidableRel r]
    (l : List α) : (sorted_unique r l).Nodup :=
  ((List.perm_insertionSort r l.dedup).nodup_iff).mpr (List.nodup_dedup l)

theorem sorted_unique_eq_nil {α : Type} [DecidableEq α] (r : α → α → Prop) [DecidableRel r]
    {l : List α} : sorted_unique r l = [] ↔ l = [] := by
  constructor
  · intro h
    cases l with
    | nil => rfl
    | cons a t =>
      have ha : a ∈ sorted_unique r (a :: t) :=
        (mem_sorted_unique r).mpr (List.mem_cons_self a t)
      rw [h] at ha
      exact absurd ha (List.not_mem_nil a)
  · intro h
    subst h
    rfl

theorem pairwise_lt_sorted_unique {α : Type} [DecidableEq α] [LinearOrder α]
    (l : List α) : (sorted_unique (· ≤ ·) l).Pairwise (· < ·) := by
  have hs : (sorted_unique (· ≤ ·) l).Pairwise (· ≤ ·) :=
    List.sorted_insertionSort (· ≤ ·) l.dedup
  have hn : (sorted_unique (· ≤ ·) l).Pairwise (· ≠ ·) :=
    nodup_sorted_unique (· ≤ ·) l
  exact (hs.and hn).imp fun h => lt_of_le_of_ne h.1 h.2

theorem filtered_df_empty_cats (df : List Row) (wds : List String) :
    filtered_df df [] wds = [] := by
  unfold filtered_df
  rw [List.filter_eq_nil_iff]
  intro r _
  simp

/-! ## C1 and C2: behaviour at the empty Filtered View -/

/-- C1: at an empty Filtered View (empty category selection) the revenue
and items-sold KPIs are 0, but the average-order-value KPI is pandas NaN
(`none`), which the app formats and displays as `$ nan` — contradicting
the claim that it is reported as zero or "no data", never NaN. -/
theorem C1_empty_view_kpis (df : List Row) (wds : List String) :
    total_revenue (filtered_df df [] wds) = 0 ∧
    total_items_sold (filtered_df df [] wds) = 0 ∧
    avg_order_value (filtered_df df [] wds) = none := by
  rw [filtered_df_empty_cats]
  exact ⟨rfl, rfl, rfl⟩

/-- C2: at an empty Filtered View the Top Spenders and Most Loyal
aggregations produce empty tables, and `customer_revenue.iloc[0]` /
`customer_loyalty.iloc[0]` raise `IndexError` (modelled as `none`), a
user-visible crash — contradicting the claim that every aggregation
degrades to an empty table or zero value. -/
theorem C2_empty_view_crash (df : List Row) (wds : List String) :
    customer_revenue (filtered_df df [] wds) = [] ∧
    top_spender (filtered_df df [] wds) = none ∧
    most_loyal (filtered_df df [] wds) = none := by
  rw [filtered_df_empty_cats]
  exact ⟨rfl, rfl, rfl⟩

/-! ## C4: filter row-count bounds and silent ignoring of absent values -/

/-- Set equality of two selections given as lists: mutual inclusion. -/
def same_set (l1 l2 : List String) : Prop :=
  (∀ x ∈ l1, x ∈ l2) ∧ (∀ x ∈ l2, x ∈ l1)

instance (l1 l2 : List String) : Decidable (same_set l1 l2) := by
  unfold same_set; exact inferInstance

/-- A one-row dataset used to exercise C4. -/
def C4df : List Row :=
  [{ order_id := 1, cust_id := 1, category := "Drinks", item := "Tea",
     quantity := 2, order_total := 10, order_date := ⟨2022, 1, 3⟩,
     day := ⟨2022, 1, 3⟩, weekday := "Monday", month := 1, year := 2022 }]

/-- C4 counterexample: with the one-row dataset `C4df` (category domain
`{"Drinks"}`, weekday domain `{"Monday"}`) and the selection
`{"Drinks", "Pizza"}` / `{"Monday"}`, the Filtered View keeps every row
(counts are equal) although the category selection does not equal the
dataset's category domain — the "equality iff both selection sets equal
the full domain" biconditional of the claim is false at this input. -/
theorem C4_counterexample :
    ¬ (((filtered_df C4df ["Drinks", "Pizza"] ["Monday"]).length = C4df.length) ↔
      (same_set ["Drinks", "Pizza"] (C4df.map Row.category) ∧
       same_set ["Monday"] (C4df.map Row.weekday))) := by
  decide

/-- C4 (amended): for every dataset and selections, the Filtered View row
count is at most the dataset row count, with equality iff each selection
set contains every value of the corresponding column present in the
dataset (equality of the selections with the full domains is sufficient
but not necessary: supersets also give equality); a selection value absent
from the dataset is silently ignored — adding it never changes the
Filtered View. -/
theorem C4_filter_bounds (df : List Row) (cats wds : List String) :
    (filtered_df df cats wds).length ≤ df.length ∧
    ((filtered_df df cats wds).length = df.length ↔
      ((∀ c ∈ df.map Row.category, c ∈ cats) ∧ (∀ w ∈ df.map Row.weekday, w ∈ wds))) ∧
    (∀ x, x ∉ df.map Row.category →
      filtered_df df (x :: cats) wds = filtered_df df cats wds) ∧
    (∀ x, x ∉ df.map Row.weekday →
      filtered_df df cats (x :: wds) = filtered_df df cats wds) := by
  refine ⟨List.length_filter_le _ _, ?_, ?_, ?_⟩
  · rw [filtered_df, List.filter_length_eq_length]
    simp only [List.forall_mem_map, Bool.and_eq_true, decide_eq_true_eq]
    constructor
    · intro h
      exact ⟨fun r hr => (h r hr).1, fun r hr => (h r hr).2⟩
    · intro h r hr
      exact ⟨h.1 r hr, h.2 r hr⟩
  · intro x hx
    unfold filtered_df
    apply List.filter_congr
    intro r hr
    have hne : r.category ≠ x := by
      intro h
      exact hx (h ▸ List.mem_map_of_mem Row.category hr)
    simp [List.mem_cons, hne]
  · intro x hx
    unfold filtered_df
    apply List.filter_congr
    intro r hr
    have hne : r.weekday ≠ x := by
      intro h
      exact hx (h ▸ List.mem_map_of_mem Row.weekday hr)
    simp [List.mem_cons, hne]

/-- C4 witness: the amended theorem applied at the concrete dataset
`C4df`, with the absent category `"Pizza"` and the absent weekday
`"Sunday"`. -/
theorem C4_filter_bounds_witness :
    filtered_df C4df ("Pizza" :: ["Drinks"]) ["Monday"] =
      filtered_df C4df ["Drinks"] ["Monday"] ∧
    filtered_df C4df ["Drinks"] ("Sunday" :: ["Monday"]) =
      filtered_df C4df ["Drinks"] ["Monday"] :=
  ⟨(C4_filter_bounds C4df ["Drinks"] ["Monday"]).2.2.1 "Pizza" (by decide),
   (C4_filter_bounds C4df ["Drinks"] ["Monday"]).2.2.2 "Sunday" (by decide)⟩

/-! ## C6: the Filter Engine is idempotent and order-independent -/

/-- C6: filtering an already-filtered view with the same selections is the
identity, and the Filtered View is invariant under permuting the elements
inside each selection list. -/
theorem C6_idempotent_order_independent (df : List Row)
    (cats wds cats2 wds2 : List String) (hc : cats.Perm cats2) (hw : wds.Perm wds2) :
    filtered_df (filtered_df df cats wds) cats wds = filtered_df df cats wds ∧
    filtered_df df cats2 wds2 = filtered_df df cats wds := by
  constructor
  · unfold filtered_df
    rw [List.filter_filter]
    apply List.filter_congr
    intro r _
    simp
  · unfold filtered_df
    apply List.filter_congr
    intro r _
    rw [decide_eq_decide.mpr hc.symm.mem_iff, decide_eq_decide.mpr hw.symm.mem_iff]

/-- A two-row dataset used to exercise C6. -/
def C6df : List Row :=
  [{ order_id := 1, cust_id := 1, category := "Drinks", item := "Tea",
     quantity := 2, order_total := 10, order_date := ⟨2022, 1, 3⟩,
     day := ⟨2022, 1, 3⟩, weekday := "Monday", month := 1, year := 2022 },
   { order_id := 2, cust_id := 2, category := "Food", item := "Rice",
     quantity := 1, order_total := 20, order_date := ⟨2022, 1, 4⟩,
     day := ⟨2022, 1, 4⟩, weekday := "Tuesday", month := 1, year := 2022 }]

/-- C6 witness: the theorem applied at the concrete dataset `C6df`, with
the category list permuted to `["Food", "Drinks"]` and the weekday list
permuted to `["Tuesday", "Monday"]`. -/
theorem C6_idempotent_order_independent_witness :
    filtered_df (filtered_df C6df ["Drinks", "Food"] ["Monday", "Tuesday"])
        ["Drinks", "Food"] ["Monday", "Tuesday"] =
      filtered_df C6df ["Drinks", "Food"] ["Monday", "Tuesday"] ∧
    filtered_df C6df ["Food", "Drinks"] ["Tuesday", "Monday"] =
      filtered_df C6df ["Drinks", "Food"] ["Monday", "Tuesday"] :=
  C6_idempotent_order_independent C6df ["Drinks", "Food"] ["Monday", "Tuesday"]
    ["Food", "Drinks"] ["Tuesday", "Monday"] (by decide) (by decide)

/-! ## C5: grouping by category conserves total revenue -/

theorem sum_ite_key {κ : Type} [DecidableEq κ] (keys : List κ) (k : κ) (c : ℚ)
    (hmem : k ∈ keys) (hnd : keys.Nodup) :
    (keys.map fun x => if k = x then c else 0).sum = c := by
  induction keys with
  | nil => cases hmem
  | cons a t ih =>
    rcases List.mem_cons.mp hmem with h | h
    · subst h
      have hz : ((t.map fun x => if k = x then c else 0)).sum = 0 := by
        apply List.sum_eq_zero
        intro x hx
        rcases List.mem_map.mp hx with ⟨y, hy, hxy⟩
        have : k ≠ y := fun he => (List.nodup_cons.mp hnd).1 (he ▸ hy)
        simpa [this] using hxy.symm
      simp [hz]
    · have hka : k ≠ a := by
        intro he
        exact (List.nodup_cons.mp hnd).1 (he ▸ h)
      simp [hka, ih h (List.nodup_cons.mp hnd).2]

theorem sum_partition {κ : Type} [DecidableEq κ] (keys : List κ) (key : Row → κ)
    (f : Row → ℚ) (v : List Row) (hnd : keys.Nodup) (hcov : ∀ r ∈ v, key r ∈ keys) :
    (keys.map fun k => ((v.filter fun row => decide (key row = k)).map f).sum).sum
      = (v.map f).sum := by
  induction v with
  | nil => simp
  | cons r t ih =>
    have hr : key r ∈ keys := hcov r (List.mem_cons_self r t)
    have ht : ∀ x ∈ t, key x ∈ keys := fun x hx => hcov x (List.mem_cons.mpr (Or.inr hx))
    have hterm : ∀ k, (((r :: t).filter fun row => decide (key row = k)).map f).sum
        = (if key r = k then f r else 0)
          + ((t.filter fun row => decide (key row = k)).map f).sum := by
      intro k
      by_cases h : key r = k <;> simp [List.filter_cons, h]
    calc (keys.map fun k => (((r :: t).filter fun row => decide (key row = k)).map f).sum).sum
        = (keys.map fun k => (if key r = k then f r else 0)
            + ((t.filter fun row => decide (key row = k)).map f).sum).sum := by
          congr 1
          exact List.map_congr_left fun k _ => hterm k
      _ = (keys.map fun k => if key r = k then f r else 0).sum
            + (keys.map fun k => ((t.filter fun row => decide (key row = k)).map f).sum).sum := by
          rw [← List.sum_map_add]
      _ = f r + (t.map f).sum := by
          rw [sum_ite_key keys (key r) (f r) hr hnd, ih ht]
      _ = ((r :: t).map f).sum := by simp

/-- C5: the per-category revenues of the Revenue-by-Category table sum to
the total-revenue KPI over the same Filtered View — grouping by category
partitions the rows and conserves the total. -/
theorem C5_partition_conservation (v : List Row) :
    ((rev_cat v).map Prod.snd).sum = total_revenue v := by
  unfold rev_cat groupby_agg total_revenue sum_total
  rw [List.map_map]
  have h := sum_partition (sorted_unique (· ≤ ·) (v.map Row.category)) Row.category
    Row.order_total v (nodup_sorted_unique _ _)
    (fun r hr => (mem_sorted_unique _).mpr (List.mem_map_of_mem Row.category hr))
  simpa [Function.comp] using h

/-! ## Month lookup helpers -/

theorem filter_map_head_mem {α β : Type} {p : α → Bool} {f : α → β} {l : List α} {b : β}
    (h : ((l.filter p).map f).head? = some b) : ∃ a ∈ l, p a = true ∧ f a = b := by
  induction l with
  | nil => simp at h
  | cons x t ih =>
    by_cases hx : p x = true
    · rw [List.filter_cons_of_pos hx] at h
      simp only [List.map_cons, List.head?_cons, Option.some.injEq] at h
      exact ⟨x, List.mem_cons_self x t, hx, h⟩
    · rw [List.filter_cons_of_neg hx] at h
      rcases ih h with ⟨a, ha, hpa, hfa⟩
      exact ⟨a, List.mem_cons.mpr (Or.inr ha), hpa, hfa⟩

theorem month_map_get_mem {m : ℕ} {s : String} (h : month_map_get m = some s) :
    (m, s) ∈ MONTH_MAP := by
  rcases filter_map_head_mem h with ⟨a, ha, hpa, hfa⟩
  have h1 : a.1 = m := by simpa using hpa
  have : a = (m, s) := Prod.ext h1 hfa
  exact this ▸ ha

theorem month_num_of_mem : ∀ p ∈ MONTH_MAP, month_num p.2 = some p.1 := by decide

theorem month_map_no_sentinel : ∀ p ∈ MONTH_MAP, p.2 ≠ "All Months" := by decide

theorem month_map_get_of_valid (m : ℕ) (h1 : 1 ≤ m) (h2 : m ≤ 12) :
    ∃ s, month_map_get m = some s := by
  interval_cases m <;> exact ⟨_, rfl⟩

theorem lookup_all_of_isSome {f : ℕ → Option String} {ms : List ℕ}
    (h : ∀ m ∈ ms, (f m).isSome) :
    ∃ out, lookup_all f ms = some out ∧
      List.Forall₂ (fun m s => f m = some s) ms out := by
  induction ms with
  | nil => exact ⟨[], rfl, List.Forall₂.nil⟩
  | cons m t ih =>
    rcases Option.isSome_iff_exists.mp (h m (List.mem_cons_self m t)) with ⟨s, hs⟩
    rcases ih (fun x hx => h x (List.mem_cons.mpr (Or.inr hx))) with ⟨out, hout, hf⟩
    exact ⟨s :: out, by simp [lookup_all, hs, hout], List.Forall₂.cons hs hf⟩

theorem lookup_all_mem {f : ℕ → Option String} :
    ∀ {ms : List ℕ} {out : List String}, lookup_all f ms = some out →
      ∀ {s : String}, s ∈ out → ∃ m ∈ ms, f m = some s := by
  intro ms
  induction ms with
  | nil =>
    intro out h s hs
    simp only [lookup_all, Option.some.injEq] at h
    subst h
    cases hs
  | cons m t ih =>
    intro out h s hs
    cases hfm : f m with
    | none => simp [lookup_all, hfm] at h
    | some s0 =>
      cases hrest : lookup_all f t with
      | none => simp [lookup_all, hfm, hrest] at h
      | some rest =>
        simp only [lookup_all, hfm, hrest, Option.some.injEq] at h
        subst h
        rcases List.mem_cons.mp hs with hss | hsr
        · exact ⟨m, List.mem_cons_self m t, hss ▸ hfm⟩
        · rcases ih hrest hsr with ⟨x, hx, hfx⟩
          exact ⟨x, List.mem_cons.mpr (Or.inr hx), hfx⟩

theorem mem_months_in_year (v : List Row) (y m : ℕ) :
    m ∈ months_in_year v y ↔ ∃ r ∈ v, r.year = y ∧ r.month = m := by
  unfold months_in_year df_year
  rw [mem_sorted_unique]
  simp [List.mem_filter, and_comm, and_assoc]

theorem daily_rev_eq_nil {p : List Row} (h : p = []) : daily_rev p = [] := by
  subst h
  rfl

/-! ## C7: empty daily-revenue sub-views report "no data" -/

/-- C7: for any offered year/month selection, the daily-revenue block
never fails (the month-name reverse lookup succeeds), and whenever the
selected sub-view has no rows the block renders the
"No data available for this month." message, not a chart. -/
theorem C7_no_data (v : List Row) (y : ℕ) (sel : String) (opts : List String)
    (hopts : month_options v y = some opts) (hsel : sel ∈ opts) :
    ∃ p, plot_df v y sel = some p ∧
      (p = [] → daily_rev_year v y sel = some DailyRender.noData) := by
  unfold month_options at hopts
  cases hla : lookup_all month_map_get (months_in_year v y) with
  | none => rw [hla] at hopts; cases hopts
  | some names =>
    rw [hla] at hopts
    simp only [Option.map_some', Option.some.injEq] at hopts
    subst hopts
    by_cases hall : sel = "All Months"
    · subst hall
      refine ⟨df_year v y, by simp [plot_df], ?_⟩
      intro hp
      simp [daily_rev_year, plot_df, render_daily, daily_rev_eq_nil hp]
    · have hnames : sel ∈ names := by
        rcases List.mem_cons.mp hsel with h | h
        · exact absurd h hall
        · exact h
      rcases lookup_all_mem hla hnames with ⟨m, _, hget⟩
      have hmem : (m, sel) ∈ MONTH_MAP := month_map_get_mem hget
      have hnum : month_num sel = some m := month_num_of_mem (m, sel) hmem
      refine ⟨(df_year v y).filter fun r => decide (r.month = m), ?_, ?_⟩
      · simp [plot_df, hall, hnum]
      · intro hp
        simp [daily_rev_year, plot_df, hall, hnum, render_daily, daily_rev_eq_nil hp]

/-- A one-row dataset (its row is in 2023) used to exercise C7 at an empty
2022 sub-view. -/
def C7df : List Row :=
  [{ order_id := 1, cust_id := 1, category := "Drinks", item := "Tea",
     quantity := 2, order_total := 10, order_date := ⟨2023, 5, 3⟩,
     day := ⟨2023, 5, 3⟩, weekday := "Wednesday", month := 5, year := 2023 }]

/-- C7 witness: the theorem applied at the dataset `C7df`, year 2022 and
the offered selection "All Months"; the 2022 sub-view is empty, so the
block renders the no-data message. -/
theorem C7_no_data_witness :
    ∃ p, plot_df C7df 2022 "All Months" = some p ∧
      (p = [] → daily_rev_year C7df 2022 "All Months" = some DailyRender.noData) :=
  C7_no_data C7df 2022 "All Months" ["All Months"] (by decide) (by decide)

/-! ## C8: month options are exactly the months present, ascending -/

/-- C8: whenever every month of the dataset is a real month number
(guaranteed by the datetime parse), the offered month options for year `y`
are exactly "All Months" followed by the names of the months present in
that year's sub-view, listed in ascending month order — so an invalid
month selection is structurally unreachable. -/
theorem C8_month_options (v : List Row) (y : ℕ)
    (hvalid : ∀ r ∈ v, 1 ≤ r.month ∧ r.month ≤ 12) :
    ∃ names, month_options v y = some ("All Months" :: names) ∧
      List.Forall₂ (fun m s => month_map_get m = some s) (months_in_year v y) names ∧
      (months_in_year v y).Pairwise (· < ·) ∧
      ∀ m, m ∈ months_in_year v y ↔ ∃ r ∈ v, r.year = y ∧ r.month = m := by
  have hsome : ∀ m ∈ months_in_year v y, (month_map_get m).isSome := by
    intro m hm
    rcases (mem_months_in_year v y m).mp hm with ⟨r, hr, _, hmon⟩
    rcases month_map_get_of_valid m (hmon ▸ (hvalid r hr).1) (hmon ▸ (hvalid r hr).2) with ⟨s, hs⟩
    simp [hs]
  rcases lookup_all_of_isSome hsome with ⟨names, hla, hforall⟩
  refine ⟨names, ?_, hforall, pairwise_lt_sorted_unique _, mem_months_in_year v y⟩
  simp [month_options, hla]

/-- A two-row dataset used to exercise C8. -/
def C8df : List Row :=
  [{ order_id := 1, cust_id := 1, category := "Drinks", item := "Tea",
     quantity := 2, order_total := 10, order_date := ⟨2022, 7, 3⟩,
     day := ⟨2022, 7, 3⟩, weekday := "Sunday", month := 7, year := 2022 },
   { order_id := 2, cust_id := 2, category := "Food", item := "Rice",
     quantity := 1, order_total := 20, order_date := ⟨2022, 2, 4⟩,
     day := ⟨2022, 2, 4⟩, weekday := "Friday", month := 2, year := 2022 }]

/-- C8 witness: the theorem applied at the dataset `C8df` (months 7 and 2
in 2022), discharging the month-validity hypothesis by computation. -/
theorem C8_month_options_witness :
    ∃ names, month_options C8df 2022 = some ("All Months" :: names) ∧
      List.Forall₂ (fun m s => month_map_get m = some s) (months_in_year C8df 2022) names ∧
      (months_in_year C8df 2022).Pairwise (· < ·) ∧
      ∀ m, m ∈ months_in_year C8df 2022 ↔ ∃ r ∈ C8df, r.year = 2022 ∧ r.month = m :=
  C8_month_options C8df 2022 (by decide)

/-! ## C9: the daily-revenue view only ever uses years 2022 and 2023 -/

theorem df_year_restrict (v : List Row) (y : ℕ) (q : Row → Bool)
    (hq : ∀ r, r.year = y → q r = true) :
    df_year (v.filter q) y = df_year v y := by
  unfold df_year
  rw [List.filter_filter]
  apply List.filter_congr
  intro r _
  by_cases h : r.year = y
  · simp [h, hq r h]
  · simp [h]

theorem plot_df_restrict (v : List Row) (y : ℕ) (sel : String) (q : Row → Bool)
    (hq : ∀ r, r.year = y → q r = true) :
    plot_df (v.filter q) y sel = plot_df v y sel := by
  unfold plot_df
  rw [df_year_restrict v y q hq]

/-- C9: the two daily-revenue blocks are computed from the fixed year
literals 2022 and 2023; rows of any other derived year never contribute —
restricting the Filtered View to the years `{2022, 2023}` changes neither
block, for any month selection. -/
theorem C9_years_fixed (v : List Row) (sel22 sel23 : String) :
    daily_rev_year v 2022 sel22 =
      daily_rev_year (v.filter fun r => decide (r.year = 2022) || decide (r.year = 2023))
        2022 sel22 ∧
    daily_rev_year v 2023 sel23 =
      daily_rev_year (v.filter fun r => decide (r.year = 2022) || decide (r.year = 2023))
        2023 sel23 := by
  constructor
  · unfold daily_rev_year
    rw [plot_df_restrict v 2022 sel22 _ (fun r h => by simp [h])]
  · unfold daily_rev_year
    rw [plot_df_restrict v 2023 sel23 _ (fun r h => by simp [h])]

/-! ## C10: month-name round trip and exact month narrowing -/

/-- C10: for every real month number the dict lookup followed by the
reverse list-comprehension lookup is the identity
(`month_num(MONTH_MAP[m]) = m`), and selecting the offered name
`MONTH_MAP[m]` narrows the year sub-view to exactly the rows whose derived
month equals `m`. -/
theorem C10_month_roundtrip :
    (∀ m, 1 ≤ m → m ≤ 12 → ∃ s, month_map_get m = some s ∧ month_num s = some m) ∧
    (∀ (v : List Row) (y m : ℕ) (s : String), month_map_get m = some s →
      ∃ p, plot_df v y s = some p ∧
        ∀ r, r ∈ p ↔ (r ∈ v ∧ r.year = y ∧ r.month = m)) := by
  constructor
  · intro m h1 h2
    rcases month_map_get_of_valid m h1 h2 with ⟨s, hs⟩
    exact ⟨s, hs, month_num_of_mem (m, s) (month_map_get_mem hs)⟩
  · intro v y m s hget
    have hmem : (m, s) ∈ MONTH_MAP := month_map_get_mem hget
    have hnum : month_num s = some m := month_num_of_mem (m, s) hmem
    have hns : s ≠ "All Months" := month_map_no_sentinel (m, s) hmem
    refine ⟨(df_year v y).filter fun r => decide (r.month = m), ?_, ?_⟩
    · simp [plot_df, hns, hnum]
    · intro r
      simp only [df_year, List.mem_filter, decide_eq_true_eq]
      tauto

/-- A one-row dataset used to exercise C10. -/
def C10df : List Row :=
  [{ order_id := 1, cust_id := 1, category := "Drinks", item := "Tea",
     quantity := 2, order_total := 10, order_date := ⟨2022, 3, 9⟩,
     day := ⟨2022, 3, 9⟩, weekday := "Wednesday", month := 3, year := 2022 }]

/-- C10 witness: both halves of the theorem applied at month 3 ("March")
and the concrete dataset `C10df`. -/
theorem C10_month_roundtrip_witness :
    (∃ s, month_map_get 3 = some s ∧ month_num s = some 3) ∧
    (∃ p, plot_df C10df 2022 "March" = some p ∧
      ∀ r, r ∈ p ↔ (r ∈ C10df ∧ r.year = 2022 ∧ r.month = 3)) :=
  ⟨C10_month_roundtrip.1 3 (by decide) (by decide),
   C10_month_roundtrip.2 C10df 2022 3 "March" (by decide)⟩

end SalesDash
